import Mathlib

/-!
# geant4-template: a shallow embedding of `src/main.cc`

The translation unit is glue code over the Geant4 toolkit.  The embedding keeps
what the glue itself does:

* `main` is a straight-line sequence of toolkit calls with one two-way branch;
  it is modelled as a function from the argument vector to the chronological
  list of the calls it makes (`Effect`), objects being named by the order in
  which they come into being (`Ptr`);
* `DetectorConstruction::Construct` is modelled as a function from the material
  database and the length unit to the solids, logical volumes and placements it
  allocates;
* `PrimaryGeneratorAction`, `ActionInitialization` and the three hook classes
  are modelled by explicit state passing over the objects they touch.

`G4double` quantities are exact rationals.  The unit constants `cm` and `MeV`
come from a toolkit header and are parameters of the model.
-/

namespace Geant4Template

/-! ## Objects and toolkit calls of `main` -/

/-- Identity of an object: its rank among the objects created so far. -/
abbrev Ptr := Nat

/-- One toolkit call (or object creation, or destruction) made by `main`. -/
inductive Effect where
  /-- Source: `new G4UIExecutive(argc, argv)` -/
  | newG4UIExecutive (p : Ptr) (argc : Nat) (argv : List String)
  /-- Source: `G4SteppingVerbose::UseBestUnit(precision)` -/
  | UseBestUnit (precision : Int)
  /-- Source: `G4RunManagerFactory::CreateRunManager(G4RunManagerType::Default)` -/
  | CreateRunManager (p : Ptr)
  /-- Source: `new DetectorConstruction()` -/
  | newDetectorConstruction (p : Ptr)
  /-- Source: `new QBBC` -/
  | newQBBC (p : Ptr)
  /-- Source: `physicsList->SetVerboseLevel(level)` -/
  | SetVerboseLevel (physicsList : Ptr) (level : Int)
  /-- Source: `new ActionInitialization()` -/
  | newActionInitialization (p : Ptr)
  /-- Source: `runManager->SetUserInitialization(obj)` -/
  | SetUserInitialization (runManager obj : Ptr)
  /-- Source: `new G4VisExecutive(argc, argv)` -/
  | newG4VisExecutive (p : Ptr) (argc : Nat) (argv : List String)
  /-- Source: `visManager->Initialize()` -/
  | Initialize (visManager : Ptr)
  /-- Source: `G4UImanager::GetUIpointer()` -/
  | GetUIpointer
  /-- the read of `argv[i]` -/
  | readArgv (i : Nat)
  /-- Source: `UImanager->ApplyCommand(command)` -/
  | ApplyCommand (command : String)
  /-- Source: `ui->SessionStart()` -/
  | SessionStart (ui : Ptr)
  /-- Source: `delete p` -/
  | delete (p : Ptr)
  deriving DecidableEq, Repr

/-- The running program: how many objects exist and what has been done. -/
structure Machine where
  next : Ptr := 0
  trace : List Effect := []
  deriving DecidableEq, Repr

/-- Record one more call. -/
def Machine.emit (m : Machine) (e : Effect) : Machine :=
  { m with trace := m.trace ++ [e] }

/-- Create an object: it gets the next free identity and `mk` records it. -/
def Machine.alloc (m : Machine) (mk : Ptr → Effect) : Ptr × Machine :=
  (m.next, { next := m.next + 1, trace := m.trace ++ [mk m.next] })

/-- What a run of `main` amounts to.  `exit = none` stands for a run whose
behaviour is undefined (the read of `argv[1]` past the end of the vector). -/
structure Outcome where
  trace : List Effect
  exit : Option Int
  deriving DecidableEq, Repr

/-- Lines 210-217 of `main`: job termination. -/
def jobTermination (m : Machine) (visManager runManager : Ptr) : Outcome :=
  let m := m.emit (.delete visManager)
  let m := m.emit (.delete runManager)
  { trace := m.trace, exit := some 0 }

/-- Lines 196-208 of `main`: process the macro or start the UI session. -/
def processMacroOrStartSession (m : Machine) (argv : List String) (ui : Option Ptr)
    (visManager runManager : Ptr) : Outcome :=
  match ui with
  | none =>
    -- batch mode
    let command := "/control/execute "
    let m := m.emit (.readArgv 1)
    match argv[1]? with
    | none => { trace := m.trace, exit := none }
    | some fileName =>
      let m := m.emit (.ApplyCommand (command ++ fileName))
      jobTermination m visManager runManager
  | some ui =>
    -- interactive mode
    let m := m.emit (.ApplyCommand "/control/execute init_vis.mac")
    let m := m.emit (.SessionStart ui)
    let m := m.emit (.delete ui)
    jobTermination m visManager runManager

/-- Lines 159-194 of `main`: everything between the mode detection and the
branch on `ui`.  Returns the machine, the visualization manager and the run
manager. -/
def setUp (m : Machine) (argv : List String) : Machine × Ptr × Ptr :=
  let argc := argv.length
  let precision : Int := 4
  let m := m.emit (.UseBestUnit precision)
  let r := m.alloc .CreateRunManager
  let runManager := r.1
  let m := r.2
  let r := m.alloc .newDetectorConstruction
  let m := r.2.emit (.SetUserInitialization runManager r.1)
  let r := m.alloc .newQBBC
  let physicsList := r.1
  let m := r.2.emit (.SetVerboseLevel physicsList 1)
  let m := m.emit (.SetUserInitialization runManager physicsList)
  let r := m.alloc .newActionInitialization
  let m := r.2.emit (.SetUserInitialization runManager r.1)
  let r := m.alloc (fun p => .newG4VisExecutive p argc argv)
  let visManager := r.1
  let m := r.2.emit (.Initialize visManager)
  let m := m.emit .GetUIpointer
  (m, visManager, runManager)

/-- Lines 153-157 of `main`: detect interactive mode and define the UI session. -/
def detectMode (m : Machine) (argv : List String) : Option Ptr × Machine :=
  let argc := argv.length
  if argc = 1 then
    let r := m.alloc (fun p => .newG4UIExecutive p argc argv)
    (some r.1, r.2)
  else
    (none, m)

/-- The entry point.  `argv` lists the `argc` strings of the argument vector. -/
def main (argv : List String) : Outcome :=
  let r := detectMode {} argv
  let ui := r.1
  let s := setUp r.2 argv
  processMacroOrStartSession s.1 argv ui s.2.1 s.2.2

/-! ## Reading a trace -/

/-- The UI commands applied, in order. -/
def commands (t : List Effect) : List String :=
  t.filterMap fun e => match e with
    | .ApplyCommand c => some c
    | _ => none

/-- The UI sessions created, in order. -/
def sessionsCreated (t : List Effect) : List Ptr :=
  t.filterMap fun e => match e with
    | .newG4UIExecutive p _ _ => some p
    | _ => none

/-- The UI sessions started, in order. -/
def sessionsStarted (t : List Effect) : List Ptr :=
  t.filterMap fun e => match e with
    | .SessionStart p => some p
    | _ => none

/-- The objects destroyed, in order. -/
def destroyed (t : List Effect) : List Ptr :=
  t.filterMap fun e => match e with
    | .delete p => some p
    | _ => none

/-- The indices of the argument vector that were read, in order. -/
def argvReads (t : List Effect) : List Nat :=
  t.filterMap fun e => match e with
    | .readArgv i => some i
    | _ => none

/-- The classes `main` deals with. -/
inductive Class where
  | G4UIExecutive | G4RunManager | DetectorConstruction | QBBC
  | ActionInitialization | G4VisExecutive
  deriving DecidableEq, Repr

/-- The class of the object `p`, read off the call that created it. -/
def classOf (t : List Effect) (p : Ptr) : Option Class :=
  t.findSome? fun e => match e with
    | .newG4UIExecutive q _ _ => if q = p then some .G4UIExecutive else none
    | .CreateRunManager q => if q = p then some .G4RunManager else none
    | .newDetectorConstruction q => if q = p then some .DetectorConstruction else none
    | .newQBBC q => if q = p then some .QBBC else none
    | .newActionInitialization q => if q = p then some .ActionInitialization else none
    | .newG4VisExecutive q _ _ => if q = p then some .G4VisExecutive else none
    | _ => none

/-- The classes of the objects destroyed, in order of destruction. -/
def destroyedClasses (t : List Effect) : List (Option Class) :=
  (destroyed t).map (classOf t)

/-- Interactive mode: `main` defined a UI session. -/
def Outcome.interactive (o : Outcome) : Prop := sessionsCreated o.trace ≠ []

instance (o : Outcome) : Decidable o.interactive := by
  unfold Outcome.interactive; exact inferInstance

/-- Batch mode: `main` defined no UI session. -/
def Outcome.batch (o : Outcome) : Prop := sessionsCreated o.trace = []

instance (o : Outcome) : Decidable o.batch := by
  unfold Outcome.batch; exact inferInstance

/-- The UI commands and session starts, in order. -/
def uiActivity (t : List Effect) : List Effect :=
  t.filter fun e => match e with
    | .ApplyCommand _ => true
    | .SessionStart _ => true
    | _ => false

/-! ## Detector construction -/

/-- A material of the toolkit's database, known by its name. -/
structure G4Material where
  name : String
  deriving DecidableEq, Repr

/-- The material manager: the database it answers from and the names it has
been asked for, in order. -/
structure G4NistManager where
  db : String → Option G4Material
  asked : List String := []

/-- The call `nist->FindOrBuildMaterial(name)`: the material, or the null
pointer, and the manager afterwards. -/
def G4NistManager.FindOrBuildMaterial (nist : G4NistManager) (name : String) :
    Option G4Material × G4NistManager :=
  (nist.db name, { nist with asked := nist.asked ++ [name] })

/-- A vector of three `G4double`s. -/
structure G4ThreeVector where
  x : ℚ := 0
  y : ℚ := 0
  z : ℚ := 0
  deriving DecidableEq, Repr

/-- A rotation matrix; `Construct` only ever passes the null pointer. -/
structure G4RotationMatrix where
  rows : List (List ℚ)
  deriving DecidableEq, Repr

/-- An axis-aligned box `G4Box(name, pX, pY, pZ)`; `pX`, `pY`, `pZ` are the
half-lengths. -/
structure G4Box where
  name : String
  pX : ℚ
  pY : ℚ
  pZ : ℚ
  deriving DecidableEq, Repr

/-- A logical volume `G4LogicalVolume(solid, material, name)`. -/
structure G4LogicalVolume where
  solid : G4Box
  material : Option G4Material
  name : String
  deriving DecidableEq, Repr

/-- A placement `G4PVPlacement(pRot, tlate, pCurrentLogical, pName,
pMotherLogical, pMany, pCopyNo, pSurfChk)`.  A placement whose mother is the
logical volume `m` is a daughter of `m`. -/
structure G4PVPlacement where
  pRot : Option G4RotationMatrix
  tlate : G4ThreeVector
  pCurrentLogical : G4LogicalVolume
  pName : String
  pMotherLogical : Option G4LogicalVolume
  pMany : Bool
  pCopyNo : Int
  pSurfChk : Bool
  deriving DecidableEq, Repr

/-- The solids, logical volumes and placements allocated so far, in order of
allocation. -/
structure GeometryStore where
  solids : List G4Box := []
  logicals : List G4LogicalVolume := []
  placements : List G4PVPlacement := []
  deriving DecidableEq, Repr

/-- The expression `new G4Box(...)`. -/
def GeometryStore.newG4Box (g : GeometryStore) (b : G4Box) : G4Box × GeometryStore :=
  (b, { g with solids := g.solids ++ [b] })

/-- The expression `new G4LogicalVolume(...)`. -/
def GeometryStore.newG4LogicalVolume (g : GeometryStore) (lv : G4LogicalVolume) :
    G4LogicalVolume × GeometryStore :=
  (lv, { g with logicals := g.logicals ++ [lv] })

/-- The expression `new G4PVPlacement(...)`. -/
def GeometryStore.newG4PVPlacement (g : GeometryStore) (pv : G4PVPlacement) :
    G4PVPlacement × GeometryStore :=
  (pv, { g with placements := g.placements ++ [pv] })

/-- Everything a call of `Construct` leaves behind: the manager after the
look-ups, the two material locals, every solid, logical volume and placement it
allocated, and the placement it returns. -/
structure Construction where
  nist : G4NistManager
  env_mat : Option G4Material
  world_mat : Option G4Material
  solids : List G4Box
  logicals : List G4LogicalVolume
  placements : List G4PVPlacement
  physWorld : G4PVPlacement

namespace DetectorConstruction

/-- The local `env_sizeXY` of `Construct` (line 69). -/
def env_sizeXY (cm : ℚ) : ℚ := 20 * cm

/-- The local `env_sizeZ` of `Construct` (line 69). -/
def env_sizeZ (cm : ℚ) : ℚ := 30 * cm

/-- The local `world_sizeXY` of `Construct` (line 79). -/
def world_sizeXY (cm : ℚ) : ℚ := 1.2 * env_sizeXY cm

/-- The local `world_sizeZ` of `Construct` (line 80). -/
def world_sizeZ (cm : ℚ) : ℚ := 1.2 * env_sizeZ cm

/-- Embeds `DetectorConstruction::Construct` (lines 63-100).  `nist` is the material
manager the singleton accessor hands out and `cm` the length unit. -/
def Construct (nist : G4NistManager) (cm : ℚ) : Construction :=
  let store : GeometryStore := {}
  -- Envelope parameters
  let r := nist.FindOrBuildMaterial "G4_WATER"
  let env_mat := r.1
  let nist := r.2
  -- Option to switch on/off checking of volumes overlaps
  let checkOverlaps := true
  -- World
  let r := nist.FindOrBuildMaterial "G4_AIR"
  let world_mat := r.1
  let nist := r.2
  let r := store.newG4Box
    { name := "World", pX := 0.5 * world_sizeXY cm, pY := 0.5 * world_sizeXY cm,
      pZ := 0.5 * world_sizeZ cm }
  let solidWorld := r.1
  let store := r.2
  let r := store.newG4LogicalVolume
    { solid := solidWorld, material := world_mat, name := "World" }
  let logicWorld := r.1
  let store := r.2
  let r := store.newG4PVPlacement
    { pRot := none, tlate := {}, pCurrentLogical := logicWorld, pName := "World",
      pMotherLogical := none, pMany := false, pCopyNo := 0, pSurfChk := checkOverlaps }
  let physWorld := r.1
  let store := r.2
  { nist := nist, env_mat := env_mat, world_mat := world_mat,
    solids := store.solids, logicals := store.logicals, placements := store.placements,
    physWorld := physWorld }

end DetectorConstruction

/-- The daughters of the logical volume `m` among the placements built. -/
def Construction.daughters (c : Construction) (m : G4LogicalVolume) : List G4PVPlacement :=
  c.placements.filter fun pv => pv.pMotherLogical = some m

/-! ## Primary generator -/

/-- A particle of the toolkit's particle table, known by its name. -/
structure G4ParticleDefinition where
  name : String
  deriving DecidableEq, Repr

/-- The particle table: what `FindParticle(name)` answers. -/
structure G4ParticleTable where
  FindParticle : String → Option G4ParticleDefinition

/-- The configuration of a particle gun, as far as this program sets it.  The
setters of the toolkit are modelled as writes of the field they name. -/
structure G4ParticleGun where
  NumberOfParticlesToBeGenerated : Int
  particle_definition : Option G4ParticleDefinition
  particle_momentum_direction : G4ThreeVector
  particle_energy : ℚ
  particle_position : G4ThreeVector
  deriving DecidableEq, Repr

/-- An event, as far as this program touches it: its number and the primary
vertices requested for it, each recorded as the gun configuration at the moment
of the request. -/
structure G4Event where
  eventID : Int
  primaryVertices : List G4ParticleGun := []
  deriving DecidableEq, Repr

namespace G4ParticleGun

/-- The constructor `G4ParticleGun(numberofparticles)`; `init` holds the values the
toolkit gives the other fields. -/
def new (init : G4ParticleGun) (numberofparticles : Int) : G4ParticleGun :=
  { init with NumberOfParticlesToBeGenerated := numberofparticles }

def SetParticleDefinition (g : G4ParticleGun) (p : Option G4ParticleDefinition) :
    G4ParticleGun :=
  { g with particle_definition := p }

def SetParticleMomentumDirection (g : G4ParticleGun) (d : G4ThreeVector) : G4ParticleGun :=
  { g with particle_momentum_direction := d }

def SetParticleEnergy (g : G4ParticleGun) (e : ℚ) : G4ParticleGun :=
  { g with particle_energy := e }

def SetParticlePosition (g : G4ParticleGun) (x : G4ThreeVector) : G4ParticleGun :=
  { g with particle_position := x }

/-- The call `GeneratePrimaryVertex(evt)`: the event gets a primary vertex made
from the configuration the gun has at that moment. -/
def GeneratePrimaryVertex (g : G4ParticleGun) (evt : G4Event) : G4Event :=
  { evt with primaryVertices := evt.primaryVertices ++ [g] }

end G4ParticleGun

/-- The class `PrimaryGeneratorAction`: its one data member, the gun it owns. -/
structure PrimaryGeneratorAction where
  fParticleGun : G4ParticleGun
  deriving DecidableEq, Repr

namespace PrimaryGeneratorAction

/-- The constructor (lines 105-117).  `particleTable` is the table the singleton
accessor hands out, `init` the gun the toolkit's constructor leaves and `MeV`
the energy unit. -/
def new (particleTable : G4ParticleTable) (init : G4ParticleGun) (MeV : ℚ) :
    PrimaryGeneratorAction :=
  let n_particle : Int := 1
  let fParticleGun := G4ParticleGun.new init n_particle
  -- default particle kinematic
  let particleName := "gamma"
  let particle := particleTable.FindParticle particleName
  let fParticleGun := fParticleGun.SetParticleDefinition particle
  let fParticleGun := fParticleGun.SetParticleMomentumDirection { x := 0, y := 0, z := 1 }
  let fParticleGun := fParticleGun.SetParticleEnergy (6 * MeV)
  { fParticleGun := fParticleGun }

/-- Embeds `PrimaryGeneratorAction::GeneratePrimaries` (lines 121-125): the object and
the event afterwards. -/
def GeneratePrimaries (self : PrimaryGeneratorAction) (anEvent : G4Event) :
    PrimaryGeneratorAction × G4Event :=
  let fParticleGun := self.fParticleGun.SetParticlePosition { x := 0, y := 0, z := 0 }
  let anEvent := fParticleGun.GeneratePrimaryVertex anEvent
  ({ fParticleGun := fParticleGun }, anEvent)

/-- The object after `GeneratePrimaries` has been called for each of `events` in
turn. -/
def afterEvents (self : PrimaryGeneratorAction) (events : List G4Event) :
    PrimaryGeneratorAction :=
  events.foldl (fun a e => (a.GeneratePrimaries e).1) self

end PrimaryGeneratorAction

/-! ## Run, event and stepping actions -/

/-- The run manager, as far as this program writes it: the random-number-store
setting, and everything else it holds. -/
structure G4RunManager (R : Type) where
  storeRandomNumberStatus : Bool
  rest : R

/-- The call `SetRandomNumberStore(flag)`. -/
def G4RunManager.SetRandomNumberStore {R : Type} (rm : G4RunManager R) (flag : Bool) :
    G4RunManager R :=
  { rm with storeRandomNumberStatus := flag }

/-- A run, as handed to the run hooks. -/
structure G4Run where
  runID : Int
  deriving DecidableEq, Repr

/-- A step, as handed to the stepping hook. -/
structure G4Step where
  stepLength : ℚ
  deriving DecidableEq, Repr

/-- The class `RunAction`: it has no data member. -/
structure RunAction where
  deriving DecidableEq, Repr

/-- The class `EventAction`: its one data member. -/
structure EventAction where
  fRunAction : Option Ptr := none
  deriving DecidableEq, Repr

/-- The class `SteppingAction`: its one data member. -/
structure SteppingAction where
  fEventAction : Option Ptr := none
  deriving DecidableEq, Repr

/-- Embeds `RunAction::BeginOfRunAction` (lines 26-29): the object and the run manager
afterwards. -/
def RunAction.BeginOfRunAction {R : Type} (self : RunAction) (_run : G4Run)
    (runManager : G4RunManager R) : RunAction × G4RunManager R :=
  -- inform the runManager to save random number seed
  (self, runManager.SetRandomNumberStore false)

/-- Embeds `RunAction::EndOfRunAction` (line 30). -/
def RunAction.EndOfRunAction {R : Type} (self : RunAction) (_run : G4Run)
    (runManager : G4RunManager R) : RunAction × G4RunManager R :=
  (self, runManager)

/-- Embeds `EventAction::BeginOfEventAction` (line 38). -/
def EventAction.BeginOfEventAction {R : Type} (self : EventAction) (_event : G4Event)
    (runManager : G4RunManager R) : EventAction × G4RunManager R :=
  (self, runManager)

/-- Embeds `EventAction::EndOfEventAction` (line 39). -/
def EventAction.EndOfEventAction {R : Type} (self : EventAction) (_event : G4Event)
    (runManager : G4RunManager R) : EventAction × G4RunManager R :=
  (self, runManager)

/-- Embeds `SteppingAction::UserSteppingAction` (line 52). -/
def SteppingAction.UserSteppingAction {R : Type} (self : SteppingAction) (_step : G4Step)
    (runManager : G4RunManager R) : SteppingAction × G4RunManager R :=
  (self, runManager)

/-! ## Action initialization -/

/-- An object on the free store. -/
inductive Object where
  | PrimaryGeneratorAction (a : PrimaryGeneratorAction)
  | RunAction (a : RunAction)
  | EventAction (a : EventAction)
  | SteppingAction (a : SteppingAction)
  deriving DecidableEq, Repr

/-- One call of `SetUserAction`, by the overload chosen and the object given. -/
inductive UserAction where
  | primaryGenerator (p : Ptr)
  | run (p : Ptr)
  | event (p : Ptr)
  | stepping (p : Ptr)
  deriving DecidableEq, Repr

/-- The free store, an object's identity being its position, and the user
actions registered so far. -/
structure Store where
  heap : List Object := []
  registered : List UserAction := []
  deriving DecidableEq, Repr

/-- The expression `new T(...)`: the object goes to the free store and its
identity is returned. -/
def Store.new (s : Store) (o : Object) : Ptr × Store :=
  (s.heap.length, { s with heap := s.heap ++ [o] })

/-- The call `SetUserAction(a)`. -/
def Store.SetUserAction (s : Store) (a : UserAction) : Store :=
  { s with registered := s.registered ++ [a] }

namespace ActionInitialization

/-- Embeds `ActionInitialization::BuildForMaster` (lines 136-139). -/
def BuildForMaster (s : Store) : Store :=
  let r := s.new (.RunAction {})
  let runAction := r.1
  r.2.SetUserAction (.run runAction)

/-- Embeds `ActionInitialization::Build` (lines 140-150).  The three parameters are
those of the `PrimaryGeneratorAction` constructor. -/
def Build (s : Store) (particleTable : G4ParticleTable) (init : G4ParticleGun) (MeV : ℚ) :
    Store :=
  let r := s.new (.PrimaryGeneratorAction (PrimaryGeneratorAction.new particleTable init MeV))
  let s := r.2.SetUserAction (.primaryGenerator r.1)
  let r := s.new (.RunAction {})
  let runAction := r.1
  let s := r.2.SetUserAction (.run runAction)
  let r := s.new (.EventAction { fRunAction := some runAction })
  let eventAction := r.1
  let s := r.2.SetUserAction (.event eventAction)
  let r := s.new (.SteppingAction { fEventAction := some eventAction })
  r.2.SetUserAction (.stepping r.1)

end ActionInitialization

/-! ## The runs of `main`, by shape of the argument vector -/

theorem main_interactive_run (prog : String) :
    main [prog] =
      { trace :=
          [.newG4UIExecutive 0 1 [prog], .UseBestUnit 4, .CreateRunManager 1,
           .newDetectorConstruction 2, .SetUserInitialization 1 2,
           .newQBBC 3, .SetVerboseLevel 3 1, .SetUserInitialization 1 3,
           .newActionInitialization 4, .SetUserInitialization 1 4,
           .newG4VisExecutive 5 1 [prog], .Initialize 5, .GetUIpointer,
           .ApplyCommand "/control/execute init_vis.mac", .SessionStart 0, .delete 0,
           .delete 5, .delete 1],
        exit := some 0 } := by
  simp [main, detectMode, setUp, processMacroOrStartSession, jobTermination,
    Machine.emit, Machine.alloc]

theorem main_batch_run (prog fileName : String) (more : List String) :
    main (prog :: fileName :: more) =
      { trace :=
          [.UseBestUnit 4, .CreateRunManager 0,
           .newDetectorConstruction 1, .SetUserInitialization 0 1,
           .newQBBC 2, .SetVerboseLevel 2 1, .SetUserInitialization 0 2,
           .newActionInitialization 3, .SetUserInitialization 0 3,
           .newG4VisExecutive 4 (more.length + 1 + 1) (prog :: fileName :: more),
           .Initialize 4, .GetUIpointer, .readArgv 1,
           .ApplyCommand ("/control/execute " ++ fileName),
           .delete 4, .delete 0],
        exit := some 0 } := by
  simp [main, detectMode, setUp, processMacroOrStartSession, jobTermination,
    Machine.emit, Machine.alloc]

theorem main_no_argv_run :
    main [] =
      { trace :=
          [.UseBestUnit 4, .CreateRunManager 0,
           .newDetectorConstruction 1, .SetUserInitialization 0 1,
           .newQBBC 2, .SetVerboseLevel 2 1, .SetUserInitialization 0 2,
           .newActionInitialization 3, .SetUserInitialization 0 3,
           .newG4VisExecutive 4 0 [], .Initialize 4, .GetUIpointer, .readArgv 1],
        exit := none } := by
  simp [main, detectMode, setUp, processMacroOrStartSession, jobTermination,
    Machine.emit, Machine.alloc]

/-- An argument vector of two or more strings begins with the program name and
`argv[1]`. -/
theorem argv_two_le (argv : List String) (h : 2 ≤ argv.length) :
    ∃ prog fileName more, argv = prog :: fileName :: more := by
  match argv, h with
  | prog :: fileName :: more, _ => exact ⟨prog, fileName, more, rfl⟩

/-- The batch command is the fixed interactive command exactly when the macro
path is `init_vis.mac`. -/
theorem execute_eq_init_vis (fileName : String) :
    "/control/execute " ++ fileName = "/control/execute init_vis.mac" ↔
      fileName = "init_vis.mac" := by
  have e : "/control/execute init_vis.mac" = "/control/execute " ++ "init_vis.mac" := by
    decide
  rw [e]
  constructor
  · intro h
    have hd := congrArg String.data h
    simp only [String.data_append] at hd
    exact String.ext (List.append_cancel_left hd)
  · intro h
    rw [h]

/-! ## The entry point -/

/-- C1, counterexample: with the single user argument `init_vis.mac` (argc = 2)
the one command `main` applies is `/control/execute init_vis.mac`, so "never
applies `/control/execute init_vis.mac`" fails in batch mode. -/
theorem main_batch_may_apply_init_vis :
    ["app", "init_vis.mac"].length = 2 ∧
      (main ["app", "init_vis.mac"]).batch ∧
      "/control/execute init_vis.mac" ∈ commands (main ["app", "init_vis.mac"]).trace := by
  decide

/-- C1, amended: for every argument vector with argc = 2, `main` runs in batch
mode: it creates no UI session and starts none, it applies exactly one UI
command, `"/control/execute "` followed by `argv[1]` unchanged, and that command
is `/control/execute init_vis.mac` exactly when `argv[1]` is `init_vis.mac`; the
run returns 0. -/
theorem main_one_argument_batch (argv : List String) (h : argv.length = 2) :
    (main argv).batch ∧
      sessionsStarted (main argv).trace = [] ∧
      commands (main argv).trace = ["/control/execute " ++ argv.get ⟨1, by omega⟩] ∧
      ("/control/execute init_vis.mac" ∈ commands (main argv).trace ↔
        argv.get ⟨1, by omega⟩ = "init_vis.mac") ∧
      (main argv).exit = some 0 := by
  obtain ⟨prog, fileName, more, rfl⟩ := argv_two_le argv (by omega)
  rw [main_batch_run]
  have hc : ∀ c : String, "/control/execute init_vis.mac" = c ↔
      c = "/control/execute init_vis.mac" := fun c => eq_comm
  simp [Outcome.batch, sessionsCreated, sessionsStarted, commands, hc, execute_eq_init_vis]

/-- C1, witness: the amended claim at `app run.mac`. -/
theorem main_one_argument_batch_witness :
    ["app", "run.mac"].length = 2 ∧
      commands (main ["app", "run.mac"]).trace = ["/control/execute run.mac"] ∧
      sessionsStarted (main ["app", "run.mac"]).trace = [] :=
  ⟨by decide, (main_one_argument_batch ["app", "run.mac"] (by decide)).2.2.1,
    (main_one_argument_batch ["app", "run.mac"] (by decide)).2.1⟩

/-- C2: for an argument vector with argc = 1, `main` runs in interactive mode: it
creates one UI session, the UI activity of the run is the fixed command
`/control/execute init_vis.mac` followed by the start of that session and
nothing else, and no element of `argv` is read by `main` (in particular not
`argv[1]`); the run returns 0. -/
theorem main_no_argument_interactive (argv : List String) (h : argv.length = 1) :
    (main argv).interactive ∧
      (∃ ui, sessionsCreated (main argv).trace = [ui] ∧
        sessionsStarted (main argv).trace = [ui] ∧
        uiActivity (main argv).trace =
          [.ApplyCommand "/control/execute init_vis.mac", .SessionStart ui]) ∧
      commands (main argv).trace = ["/control/execute init_vis.mac"] ∧
      argvReads (main argv).trace = [] ∧
      (main argv).exit = some 0 := by
  match argv, h with
  | [prog], _ =>
    rw [main_interactive_run]
    simp [Outcome.interactive, sessionsCreated, sessionsStarted, commands, uiActivity,
      argvReads]

/-- C2, witness: the claim at the argument vector `app`. -/
theorem main_no_argument_interactive_witness :
    ["app"].length = 1 ∧
      uiActivity (main ["app"]).trace =
        [.ApplyCommand "/control/execute init_vis.mac", .SessionStart 0] ∧
      argvReads (main ["app"]).trace = [] :=
  ⟨by decide, by decide, (main_no_argument_interactive ["app"] (by decide)).2.2.2.1⟩

/-- C7, counterexample: in interactive mode (argc = 1) `main` destroys three
objects, the UI session first, not only the visualization manager and the run
manager. -/
theorem main_interactive_destroys_ui :
    destroyedClasses (main ["app"]).trace =
      [some .G4UIExecutive, some .G4VisExecutive, some .G4RunManager] := by
  decide

/-- C7, amended: in every run of `main` with argc at least 1, the objects `main`
destroys are, in this order, the UI session it created (interactive mode only,
argc = 1), the visualization manager and the run manager; it destroys nothing
else, so neither the detector construction, nor the physics list, nor the
action initialization. -/
theorem main_destroys_in_order (argv : List String) (h : 1 ≤ argv.length) :
    destroyedClasses (main argv).trace =
      (if argv.length = 1 then [some .G4UIExecutive] else []) ++
        [some .G4VisExecutive, some .G4RunManager] := by
  match argv, h with
  | [prog], _ =>
    rw [main_interactive_run]
    simp [destroyedClasses, destroyed, classOf]
  | prog :: fileName :: more, _ =>
    rw [main_batch_run]
    simp [destroyedClasses, destroyed, classOf]

/-- C7, witness: the amended claim at `app run.mac`. -/
theorem main_destroys_in_order_witness :
    1 ≤ ["app", "run.mac"].length ∧
      destroyedClasses (main ["app", "run.mac"]).trace =
        [some .G4VisExecutive, some .G4RunManager] :=
  ⟨by decide, main_destroys_in_order ["app", "run.mac"] (by decide)⟩

/-- C10: `main` runs in interactive mode if and only if argc = 1; for every
argument vector with argc at least 2 it runs in batch mode and applies the
single UI command `"/control/execute "` followed by `argv[1]`, the same command
for every other argument vector of at least two strings with the same
`argv[1]`. -/
theorem main_mode_by_argc (argv : List String) :
    ((main argv).interactive ↔ argv.length = 1) ∧
      (2 ≤ argv.length →
        (main argv).batch ∧
        ∃ fileName, argv[1]? = some fileName ∧
          commands (main argv).trace = ["/control/execute " ++ fileName] ∧
          ∀ argv' : List String, 2 ≤ argv'.length → argv'[1]? = argv[1]? →
            commands (main argv').trace = commands (main argv).trace) := by
  match argv with
  | [] =>
    rw [main_no_argv_run]
    simp [Outcome.interactive, sessionsCreated]
  | [prog] =>
    rw [main_interactive_run]
    simp [Outcome.interactive, sessionsCreated]
  | prog :: fileName :: more =>
    rw [main_batch_run]
    refine ⟨by simp [Outcome.interactive, sessionsCreated], fun _ => ?_⟩
    refine ⟨by simp [Outcome.batch, sessionsCreated], fileName, by simp,
      by simp [commands], ?_⟩
    intro argv' h' e
    obtain ⟨prog', fileName', more', rfl⟩ := argv_two_le argv' h'
    have hf : fileName' = fileName := by simpa using e
    rw [main_batch_run, hf]
    simp [commands]

/-- C10, witness: the batch half of the claim at `app run.mac extra`. -/
theorem main_mode_by_argc_witness :
    2 ≤ ["app", "run.mac", "extra"].length ∧
      ((main ["app", "run.mac", "extra"]).batch ∧
        ∃ fileName, ["app", "run.mac", "extra"][1]? = some fileName ∧
          commands (main ["app", "run.mac", "extra"]).trace =
            ["/control/execute " ++ fileName] ∧
          ∀ argv' : List String, 2 ≤ argv'.length →
            argv'[1]? = ["app", "run.mac", "extra"][1]? →
            commands (main argv').trace =
              commands (main ["app", "run.mac", "extra"]).trace) :=
  ⟨by decide, (main_mode_by_argc ["app", "run.mac", "extra"]).2 (by decide)⟩

/-! ## Detector construction -/

/-- What `Construct` leaves behind, field by field. -/
theorem Construct_eq (nist : G4NistManager) (cm : ℚ) :
    (DetectorConstruction.Construct nist cm).env_mat = nist.db "G4_WATER" ∧
      (DetectorConstruction.Construct nist cm).world_mat = nist.db "G4_AIR" ∧
      (DetectorConstruction.Construct nist cm).nist.asked =
        nist.asked ++ ["G4_WATER", "G4_AIR"] ∧
      (DetectorConstruction.Construct nist cm).physWorld =
        { pRot := none, tlate := { x := 0, y := 0, z := 0 },
          pCurrentLogical :=
            { solid := { name := "World", pX := 12 * cm, pY := 12 * cm, pZ := 18 * cm },
              material := nist.db "G4_AIR", name := "World" },
          pName := "World", pMotherLogical := none, pMany := false, pCopyNo := 0,
          pSurfChk := true } ∧
      (DetectorConstruction.Construct nist cm).placements =
        [(DetectorConstruction.Construct nist cm).physWorld] ∧
      (DetectorConstruction.Construct nist cm).logicals =
        [(DetectorConstruction.Construct nist cm).physWorld.pCurrentLogical] ∧
      (DetectorConstruction.Construct nist cm).solids =
        [(DetectorConstruction.Construct nist cm).physWorld.pCurrentLogical.solid] := by
  have h1 : (0.5 : ℚ) * (1.2 * (20 * cm)) = 12 * cm := by norm_num; ring
  have h2 : (0.5 : ℚ) * (1.2 * (30 * cm)) = 18 * cm := by norm_num; ring
  refine ⟨rfl, rfl, ?_, ?_, rfl, rfl, rfl⟩
  · simp [DetectorConstruction.Construct, G4NistManager.FindOrBuildMaterial]
  · simp only [DetectorConstruction.Construct, G4NistManager.FindOrBuildMaterial,
      GeometryStore.newG4Box, GeometryStore.newG4LogicalVolume, GeometryStore.newG4PVPlacement,
      DetectorConstruction.world_sizeXY, DetectorConstruction.world_sizeZ,
      DetectorConstruction.env_sizeXY, DetectorConstruction.env_sizeZ]
    rw [h1, h2]

/-- C3: with the envelope size 20 cm x 20 cm x 30 cm and lengths taken as exact
rationals, the world box that `Construct` builds has half-extents (12 cm, 12 cm,
18 cm); each is 1.2 times the corresponding envelope half-extent (10 cm, 10 cm,
15 cm), and the full extents are 24 cm x 24 cm x 36 cm. -/
theorem world_half_extents (nist : G4NistManager) (cm : ℚ) :
    (DetectorConstruction.env_sizeXY cm = 20 * cm ∧
      DetectorConstruction.env_sizeZ cm = 30 * cm) ∧
    ((DetectorConstruction.Construct nist cm).physWorld.pCurrentLogical.solid.pX = 12 * cm ∧
      (DetectorConstruction.Construct nist cm).physWorld.pCurrentLogical.solid.pY = 12 * cm ∧
      (DetectorConstruction.Construct nist cm).physWorld.pCurrentLogical.solid.pZ = 18 * cm) ∧
    (DetectorConstruction.env_sizeXY cm / 2 = 10 * cm ∧
      DetectorConstruction.env_sizeZ cm / 2 = 15 * cm) ∧
    ((DetectorConstruction.Construct nist cm).physWorld.pCurrentLogical.solid.pX =
        1.2 * (DetectorConstruction.env_sizeXY cm / 2) ∧
      (DetectorConstruction.Construct nist cm).physWorld.pCurrentLogical.solid.pY =
        1.2 * (DetectorConstruction.env_sizeXY cm / 2) ∧
      (DetectorConstruction.Construct nist cm).physWorld.pCurrentLogical.solid.pZ =
        1.2 * (DetectorConstruction.env_sizeZ cm / 2)) ∧
    (2 * (DetectorConstruction.Construct nist cm).physWorld.pCurrentLogical.solid.pX = 24 * cm ∧
      2 * (DetectorConstruction.Construct nist cm).physWorld.pCurrentLogical.solid.pY = 24 * cm ∧
      2 * (DetectorConstruction.Construct nist cm).physWorld.pCurrentLogical.solid.pZ =
        36 * cm) := by
  rw [(Construct_eq nist cm).2.2.2.1]
  refine ⟨⟨rfl, rfl⟩, ⟨rfl, rfl, rfl⟩, ⟨?_, ?_⟩, ⟨?_, ?_, ?_⟩, ⟨?_, ?_, ?_⟩⟩ <;>
    simp only [DetectorConstruction.env_sizeXY, DetectorConstruction.env_sizeZ] <;>
    norm_num <;> ring

/-- C4, counterexample: from a database that knows water and air, and with
cm = 10, `Construct` builds one box only, the world; no placement has a mother
volume, so the world has no daughter, and no volume carries water. -/
theorem construct_builds_no_envelope :
    (DetectorConstruction.Construct
        { db := fun n => if n = "G4_WATER" then some ⟨"water"⟩
                         else if n = "G4_AIR" then some ⟨"air"⟩ else none } 10).solids.length
        = 1 ∧
      (DetectorConstruction.Construct
        { db := fun n => if n = "G4_WATER" then some ⟨"water"⟩
                         else if n = "G4_AIR" then some ⟨"air"⟩ else none } 10).daughters
          (DetectorConstruction.Construct
            { db := fun n => if n = "G4_WATER" then some ⟨"water"⟩
                             else if n = "G4_AIR" then some ⟨"air"⟩ else none }
            10).physWorld.pCurrentLogical = [] ∧
      ∀ lv ∈ (DetectorConstruction.Construct
          { db := fun n => if n = "G4_WATER" then some ⟨"water"⟩
                           else if n = "G4_AIR" then some ⟨"air"⟩ else none } 10).logicals,
        lv.material ≠ some ⟨"water"⟩ := by
  refine ⟨rfl, ?_, ?_⟩
  · simp [Construction.daughters, DetectorConstruction.Construct, GeometryStore.newG4Box,
      GeometryStore.newG4LogicalVolume, GeometryStore.newG4PVPlacement]
  · simp [DetectorConstruction.Construct, G4NistManager.FindOrBuildMaterial,
      GeometryStore.newG4Box, GeometryStore.newG4LogicalVolume,
      GeometryStore.newG4PVPlacement]

/-- C4, amended: the geometry `Construct` produces consists of a single
axis-aligned box, the world: one solid, one logical volume carrying the material
found under `G4_AIR`, and one placement, the returned one, at the origin, without
rotation, without mother volume and with overlap checking on.  No envelope box
is built and the world has no daughter volume; the envelope size 20 cm x 20 cm x
30 cm only sets the world half-extents (12 cm, 12 cm, 18 cm). -/
theorem construct_world_only (nist : G4NistManager) (cm : ℚ) :
    (DetectorConstruction.Construct nist cm).solids =
        [{ name := "World", pX := 12 * cm, pY := 12 * cm, pZ := 18 * cm }] ∧
      (DetectorConstruction.Construct nist cm).logicals =
        [{ solid := { name := "World", pX := 12 * cm, pY := 12 * cm, pZ := 18 * cm },
           material := nist.db "G4_AIR", name := "World" }] ∧
      (DetectorConstruction.Construct nist cm).placements =
        [(DetectorConstruction.Construct nist cm).physWorld] ∧
      (DetectorConstruction.Construct nist cm).physWorld =
        { pRot := none, tlate := { x := 0, y := 0, z := 0 },
          pCurrentLogical :=
            { solid := { name := "World", pX := 12 * cm, pY := 12 * cm, pZ := 18 * cm },
              material := nist.db "G4_AIR", name := "World" },
          pName := "World", pMotherLogical := none, pMany := false, pCopyNo := 0,
          pSurfChk := true } ∧
      ∀ m, (DetectorConstruction.Construct nist cm).daughters m = [] := by
  obtain ⟨-, -, -, hp, hpl, hl, hs⟩ := Construct_eq nist cm
  refine ⟨?_, ?_, hpl, hp, ?_⟩
  · rw [hs, hp]
  · rw [hl, hp]
  · intro m
    simp [Construction.daughters, hpl, hp]

/-- C5: for every material database that maps `G4_WATER` to water and `G4_AIR` to
air, `Construct` asks the database for exactly these two names, in this order,
obtains water for the envelope material and air for the world material, and the
logical volume of the returned world placement carries that air. -/
theorem construct_materials (nist : G4NistManager) (cm : ℚ) (water air : G4Material)
    (hw : nist.db "G4_WATER" = some water) (ha : nist.db "G4_AIR" = some air) :
    (DetectorConstruction.Construct nist cm).nist.asked =
        nist.asked ++ ["G4_WATER", "G4_AIR"] ∧
      (DetectorConstruction.Construct nist cm).env_mat = some water ∧
      (DetectorConstruction.Construct nist cm).world_mat = some air ∧
      (DetectorConstruction.Construct nist cm).physWorld.pCurrentLogical.material =
        (DetectorConstruction.Construct nist cm).world_mat ∧
      (DetectorConstruction.Construct nist cm).physWorld.pCurrentLogical.material =
        some air := by
  obtain ⟨he, hwo, hask, hp, -⟩ := Construct_eq nist cm
  refine ⟨hask, he.trans hw, hwo.trans ha, ?_, ?_⟩
  · rw [hp, hwo]
  · rw [hp]; exact ha

/-- C5, witness: the claim at a database of water and air and cm = 10. -/
theorem construct_materials_witness :
    (DetectorConstruction.Construct
        { db := fun n => if n = "G4_WATER" then some ⟨"water"⟩
                         else if n = "G4_AIR" then some ⟨"air"⟩ else none }
        10).physWorld.pCurrentLogical.material = some ⟨"air"⟩ ∧
      (DetectorConstruction.Construct
        { db := fun n => if n = "G4_WATER" then some ⟨"water"⟩
                         else if n = "G4_AIR" then some ⟨"air"⟩ else none }
        10).env_mat = some ⟨"water"⟩ :=
  ⟨(construct_materials _ 10 ⟨"water"⟩ ⟨"air"⟩ (by decide) (by decide)).2.2.2.2,
    (construct_materials _ 10 ⟨"water"⟩ ⟨"air"⟩ (by decide) (by decide)).2.1⟩

/-! ## Primary generator -/

/-- A call of `GeneratePrimaries` rewrites the position of the gun and nothing
else of it. -/
theorem GeneratePrimaries_gun (a : PrimaryGeneratorAction) (e : G4Event) :
    (a.GeneratePrimaries e).1.fParticleGun =
      { a.fParticleGun with particle_position := { x := 0, y := 0, z := 0 } } := rfl

/-- Earlier events leave the gun as constructed, up to its position. -/
theorem afterEvents_gun (events : List G4Event) (a : PrimaryGeneratorAction) :
    ({ (a.afterEvents events).fParticleGun with
        particle_position := { x := 0, y := 0, z := 0 } } : G4ParticleGun) =
      { a.fParticleGun with particle_position := { x := 0, y := 0, z := 0 } } := by
  induction events generalizing a with
  | nil => rfl
  | cons e es ih =>
    have step : a.afterEvents (e :: es) = (a.GeneratePrimaries e).1.afterEvents es := rfl
    rw [step, ih, GeneratePrimaries_gun]

/-- C6: for every particle table that knows `gamma`, every event and every list
of earlier events, when `GeneratePrimaries` of a freshly constructed
`PrimaryGeneratorAction` requests the primary vertex, the configuration of the
gun is: particle gamma, 1 particle, energy 6 MeV, momentum direction (0,0,1),
position (0,0,0).  The event passed in does not enter it, the call leaves the
gun in that configuration, and a further call leaves the object as the previous
call left it. -/
theorem generatePrimaries_fixed_configuration (particleTable : G4ParticleTable)
    (init : G4ParticleGun) (MeV : ℚ) (gamma : G4ParticleDefinition)
    (hgamma : particleTable.FindParticle "gamma" = some gamma)
    (earlier : List G4Event) (anEvent next : G4Event) :
    ((((PrimaryGeneratorAction.new particleTable init MeV).afterEvents
          earlier).GeneratePrimaries anEvent).2 =
        { anEvent with primaryVertices := anEvent.primaryVertices ++
            [{ NumberOfParticlesToBeGenerated := 1, particle_definition := some gamma,
               particle_momentum_direction := { x := 0, y := 0, z := 1 },
               particle_energy := 6 * MeV,
               particle_position := { x := 0, y := 0, z := 0 } }] }) ∧
      ((((PrimaryGeneratorAction.new particleTable init MeV).afterEvents
          earlier).GeneratePrimaries anEvent).1.fParticleGun =
        { NumberOfParticlesToBeGenerated := 1, particle_definition := some gamma,
          particle_momentum_direction := { x := 0, y := 0, z := 1 },
          particle_energy := 6 * MeV,
          particle_position := { x := 0, y := 0, z := 0 } }) ∧
      (((((PrimaryGeneratorAction.new particleTable init MeV).afterEvents
          earlier).GeneratePrimaries anEvent).1.GeneratePrimaries next).1 =
        (((PrimaryGeneratorAction.new particleTable init MeV).afterEvents
          earlier).GeneratePrimaries anEvent).1) := by
  have hg : ((((PrimaryGeneratorAction.new particleTable init MeV).afterEvents
          earlier).GeneratePrimaries anEvent).1.fParticleGun =
        { NumberOfParticlesToBeGenerated := 1, particle_definition := some gamma,
          particle_momentum_direction := { x := 0, y := 0, z := 1 },
          particle_energy := 6 * MeV,
          particle_position := { x := 0, y := 0, z := 0 } }) := by
    rw [GeneratePrimaries_gun, afterEvents_gun]
    simp [PrimaryGeneratorAction.new, G4ParticleGun.new, G4ParticleGun.SetParticleDefinition,
      G4ParticleGun.SetParticleMomentumDirection, G4ParticleGun.SetParticleEnergy, hgamma]
  refine ⟨?_, hg, ?_⟩
  · have hev : ∀ a : PrimaryGeneratorAction, (a.GeneratePrimaries anEvent).2 =
        { anEvent with primaryVertices := anEvent.primaryVertices ++
            [(a.GeneratePrimaries anEvent).1.fParticleGun] } := fun _ => rfl
    rw [hev, hg]
  · have hobj : ∀ a b : PrimaryGeneratorAction, a.fParticleGun = b.fParticleGun → a = b := by
      intro a b h
      cases a; cases b; simp_all
    apply hobj
    rw [GeneratePrimaries_gun, hg]

/-- C6, witness: the claim at a table that knows gamma, a gun with other
initial values, MeV = 1 and two earlier events. -/
theorem generatePrimaries_fixed_configuration_witness :
    (({ FindParticle := fun n => if n = "gamma" then some ⟨"gamma"⟩ else none } :
        G4ParticleTable).FindParticle "gamma" = some ⟨"gamma"⟩) ∧
      ((((PrimaryGeneratorAction.new
            { FindParticle := fun n => if n = "gamma" then some ⟨"gamma"⟩ else none }
            { NumberOfParticlesToBeGenerated := 0, particle_definition := none,
              particle_momentum_direction := { x := 1, y := 0, z := 0 },
              particle_energy := 1000,
              particle_position := { x := 5, y := 5, z := 5 } }
            1).afterEvents [{ eventID := 0 }, { eventID := 1 }]).GeneratePrimaries
          { eventID := 2 }).1.fParticleGun =
        { NumberOfParticlesToBeGenerated := 1, particle_definition := some ⟨"gamma"⟩,
          particle_momentum_direction := { x := 0, y := 0, z := 1 },
          particle_energy := 6 * 1,
          particle_position := { x := 0, y := 0, z := 0 } }) :=
  ⟨by decide,
    (generatePrimaries_fixed_configuration _ _ 1 ⟨"gamma"⟩ (by decide)
      [{ eventID := 0 }, { eventID := 1 }] { eventID := 2 } { eventID := 3 }).2.1⟩

/-! ## Action initialization -/

/-- C8: `Build` registers exactly four action objects, one of each kind (primary
generator, run, event, stepping), all newly created and distinct; the stepping
action registered points to the event action registered, and that event action
points to the run action registered.  `BuildForMaster` creates and registers a
run action and nothing else. -/
theorem build_registers_chain (s : Store) (particleTable : G4ParticleTable)
    (init : G4ParticleGun) (MeV : ℚ) :
    (∃ pg r e st : Ptr,
      (ActionInitialization.Build s particleTable init MeV).registered =
          s.registered ++ [.primaryGenerator pg, .run r, .event e, .stepping st] ∧
        (ActionInitialization.Build s particleTable init MeV).heap =
          s.heap ++ [.PrimaryGeneratorAction (PrimaryGeneratorAction.new particleTable init MeV),
            .RunAction {}, .EventAction { fRunAction := some r },
            .SteppingAction { fEventAction := some e }] ∧
        (ActionInitialization.Build s particleTable init MeV).heap[pg]? =
          some (.PrimaryGeneratorAction (PrimaryGeneratorAction.new particleTable init MeV)) ∧
        (ActionInitialization.Build s particleTable init MeV).heap[r]? =
          some (.RunAction {}) ∧
        (ActionInitialization.Build s particleTable init MeV).heap[e]? =
          some (.EventAction { fRunAction := some r }) ∧
        (ActionInitialization.Build s particleTable init MeV).heap[st]? =
          some (.SteppingAction { fEventAction := some e }) ∧
        [pg, r, e, st].Nodup ∧
        (∀ p ∈ [pg, r, e, st], s.heap.length ≤ p)) ∧
      (ActionInitialization.BuildForMaster s).registered =
        s.registered ++ [.run s.heap.length] ∧
      (ActionInitialization.BuildForMaster s).heap = s.heap ++ [.RunAction {}] ∧
      (ActionInitialization.BuildForMaster s).heap[s.heap.length]? = some (.RunAction {}) := by
  refine ⟨⟨s.heap.length, s.heap.length + 1, s.heap.length + 2, s.heap.length + 3, ?_⟩, ?_⟩
  · have hh : (ActionInitialization.Build s particleTable init MeV).heap =
        s.heap ++ [.PrimaryGeneratorAction (PrimaryGeneratorAction.new particleTable init MeV),
          .RunAction {}, .EventAction { fRunAction := some (s.heap.length + 1) },
          .SteppingAction { fEventAction := some (s.heap.length + 2) }] := by
      simp [ActionInitialization.Build, Store.new, Store.SetUserAction]
    refine ⟨?_, hh, ?_, ?_, ?_, ?_, by simp, by simp⟩
    · simp [ActionInitialization.Build, Store.new, Store.SetUserAction]
    all_goals rw [hh, List.getElem?_append_right (by omega)]; simp
  · simp [ActionInitialization.BuildForMaster, Store.new, Store.SetUserAction]

/-! ## Run, event and stepping actions -/

/-- C9, counterexample: with the random-number store switched on,
`BeginOfRunAction` switches it off; the hook does not leave the run manager
unchanged. -/
theorem beginOfRunAction_changes_run_manager :
    ((({} : RunAction).BeginOfRunAction { runID := 0 }
        ({ storeRandomNumberStatus := true, rest := () } : G4RunManager Unit)).2
      ).storeRandomNumberStatus = false ∧
    ((({} : RunAction).BeginOfRunAction { runID := 0 }
        ({ storeRandomNumberStatus := true, rest := () } : G4RunManager Unit)).2
      ).storeRandomNumberStatus ≠
      ({ storeRandomNumberStatus := true, rest := () } :
        G4RunManager Unit).storeRandomNumberStatus := by
  decide

/-- C9, amended: `EndOfRunAction`, `BeginOfEventAction`, `EndOfEventAction` and
`UserSteppingAction` have empty bodies: for every run-manager state and every
argument they leave the run manager and the action object unchanged.
`BeginOfRunAction` is not empty: its one effect is a call of
`SetRandomNumberStore` on the run manager, so it leaves the action object and
everything of the run manager but the random-number-store setting unchanged. -/
theorem hooks_frame {R : Type} (runManager : G4RunManager R) (run : G4Run) (event : G4Event)
    (step : G4Step) (runAction : RunAction) (eventAction : EventAction)
    (steppingAction : SteppingAction) :
    runAction.EndOfRunAction run runManager = (runAction, runManager) ∧
      eventAction.BeginOfEventAction event runManager = (eventAction, runManager) ∧
      eventAction.EndOfEventAction event runManager = (eventAction, runManager) ∧
      steppingAction.UserSteppingAction step runManager = (steppingAction, runManager) ∧
      (runAction.BeginOfRunAction run runManager).1 = runAction ∧
      (runAction.BeginOfRunAction run runManager).2.rest = runManager.rest ∧
      (runAction.BeginOfRunAction run runManager).2 =
        runManager.SetRandomNumberStore
          (runAction.BeginOfRunAction run runManager).2.storeRandomNumberStatus :=
  ⟨rfl, rfl, rfl, rfl, rfl, rfl, rfl⟩

end Geant4Template
